import Mathlib

/-!
Shallow embedding of `nova.py` (SteelSeries Arctis Nova Pro Wireless
ChatMix controller) and verification of its specification claims.

The source is a single Python class `NovaProWireless`.  Pure parts
(message encoding, sink-name detection, the per-message classification)
become Lean functions; the stateful parts (the chatmix read loop, sink
lifecycle, shutdown) become explicit state passing over a `NovaState`
record plus an effect trace, with the external collaborators (USB
transport, pulse audio server) supplied as explicit inputs.
-/

namespace Nova

/-- Constant `MSGLEN = 64` (nova.py line 24). -/
def MSGLEN : Nat := 64

/-- Direction byte, host to base station (`TX = 0x6`, line 27). -/
def TX : Nat := 0x6

/-- Direction byte, base station to host (`RX = 0x7`, line 28). -/
def RX : Nat := 0x7

/-- Opcode 141: sonar icon (line 33). -/
def OPT_SONAR_ICON : Nat := 141

/-- Opcode 73: chatmix enable (line 35). -/
def OPT_CHATMIX_ENABLE : Nat := 73

/-- Opcode 37: volume (line 37). -/
def OPT_VOLUME : Nat := 37

/-- Opcode 69: chatmix report (line 39). -/
def OPT_CHATMIX : Nat := 69

/-- Opcode 49: EQ (line 41). -/
def OPT_EQ : Nat := 49

/-- Opcode 46: EQ preset (line 43). -/
def OPT_EQ_PRESET : Nat := 46

/-- Name of the virtual game sink (line 49). -/
def PW_GAME_SINK : List Char := "NovaGame".toList

/-- Name of the virtual chat sink (line 50). -/
def PW_CHAT_SINK : List Char := "NovaChat".toList

/-- Substring `HEADSET_NAME` looked for in pulse sink names (line 11). -/
def HEADSET_NAME : List Char := "SteelSeries_Arctis_Nova_Pro_Wireless".toList

/-- Python `bytes.ljust(width, fill)`: pad on the right with the fill
byte up to `width`; a longer input is returned unchanged. -/
def ljust (bs : List Nat) (width : Nat) (fill : Nat) : List Nat :=
  bs ++ List.replicate (width - bs.length) fill

/-- Embedding of `_create_msgdata` (lines 72-73): `bytes(data).ljust(self.MSGLEN, b"0")`.
Note the fill byte is the ASCII character `"0"`, i.e. `0x30`. -/
def create_msgdata (data : List Nat) : List Nat :=
  ljust data MSGLEN 0x30

/-- The spec's `Encode(opcode, payload)`: every caller of
`_create_msgdata` in the source passes the tuple `(TX, opcode, payload...)`
(lines 79, 87, 95, 102). -/
def encode (opcode : Nat) (payload : List Nat) : List Nat :=
  create_msgdata (TX :: opcode :: payload)

/-- Spec-side padding requirement, for refinement comparison only:
bytes after the payload are `0x00`. Written from the spec words
"zero-pad to 64", not from the source. -/
def encode_spec (opcode : Nat) (payload : List Nat) : List Nat :=
  ljust (TX :: opcode :: payload) MSGLEN 0x00

@[simp] theorem ljust_length (bs : List Nat) (width fill : Nat) :
    (ljust bs width fill).length = max bs.length width := by
  simp [ljust]
  omega

theorem create_msgdata_length (data : List Nat) :
    (create_msgdata data).length = max data.length MSGLEN := by
  simp [create_msgdata]

/-! ## Controller state and effect trace

The mutable attributes of `NovaProWireless` that the claims are about
become a state record; calls into the USB transport and the pulse audio
server are recorded as an effect trace. -/

/-- The mutable attributes of the `NovaProWireless` object (lines 47-61). -/
structure NovaState where
  originalSink : Option (List Char)
  gameId : Option Nat
  chatId : Option Nat
  chatmixEnabled : Bool
  sonarIconEnabled : Bool
  close : Bool
deriving DecidableEq, Repr

/-- Calls made into the external collaborators (USB transport and the
pulse audio server), plus the log lines the source prints. -/
inductive Eff where
  | write : List Nat → Eff
  | moduleLoad : List Char → Option (List Char) → Eff
  | moduleUnload : Nat → Eff
  | volumeSet : Option Nat → ℚ → Eff
  | printDisconnect : Eff
  | printVolumeFailed : Eff
  | printSinkNotFound : Eff
deriving DecidableEq, Repr

/-- A Python exception type that escapes a method of the source. -/
inductive PyError where
  | unboundLocal : PyError
deriving DecidableEq, Repr

/-- Python truthiness of `self.PW_ORIGINAL_SINK` (line 110): `None` and
the empty string are falsy. -/
def pyTruthy : Option (List Char) → Bool
  | none => false
  | some s => !s.isEmpty

/-- Python `needle in hay` on strings: contiguous substring
containment, as a boolean. -/
def containsSub (needle : List Char) : List Char → Bool
  | [] => needle.isEmpty
  | c :: t => needle.isPrefixOf (c :: t) || containsSub needle t

/-- Embedding of `_detect_original_sink` (lines 105-116): skips detection when the
sink is already (truthily) set, otherwise assigns `PW_ORIGINAL_SINK` on
EVERY sink whose name contains `HEADSET_NAME` — the loop has no break,
so each later match overwrites the earlier one. -/
def detect_original_sink (cur : Option (List Char)) (sinks : List (List Char)) :
    Option (List Char) :=
  if pyTruthy cur then cur
  else sinks.foldl (fun acc nm => if containsSub HEADSET_NAME nm then some nm else acc) cur

/-- Embedding of `_remove_sink` (lines 153-162): scans the module list and unloads
the first module whose index equals `module_id`; nothing otherwise. -/
def remove_sink (modules : List Nat) (module_id : Nat) : List Eff :=
  match modules.find? (fun m => m == module_id) with
  | some m => [Eff.moduleUnload m]
  | none => []

/-- Embedding of `_remove_virtual_sinks` (lines 127-136): unloads and clears each of
the two module ids that is not `None`. -/
def remove_virtual_sinks (modules : List Nat) (st : NovaState) :
    NovaState × List Eff :=
  let e1 := match st.gameId with
    | some id => remove_sink modules id
    | none => []
  let e2 := match st.chatId with
    | some id => remove_sink modules id
    | none => []
  ({st with gameId := none, chatId := none}, e1 ++ e2)

/-- Embedding of `_create_sink` (lines 138-151).  `load` gives the outcome of
`pulse.module_load` for a sink name and slaves target.  On success the
new module id is returned.  On `PulseError` the handler executes
`pulse.module_unload(new_sink)` — but `new_sink` was never bound, so the
handler itself raises `UnboundLocalError` before any unload or print
happens, and that exception propagates to the caller. -/
def create_sink (load : List Char → Option (List Char) → Except Unit Nat)
    (sink_name : List Char) (output_sink : Option (List Char)) :
    Except PyError Nat × List Eff :=
  match load sink_name output_sink with
  | .ok id => (.ok id, [Eff.moduleLoad sink_name output_sink])
  | .error _ => (.error .unboundLocal, [Eff.moduleLoad sink_name output_sink])

/-- Outcome of `_start_virtual_sinks`: the state after the call, the
effect trace, and the exception that escaped, if any. -/
structure StartResult where
  state : NovaState
  effs : List Eff
  raised : Option PyError
deriving DecidableEq, Repr

/-- Embedding of `_start_virtual_sinks` (lines 118-125): detect the original sink,
remove existing virtual sinks, then create the game sink and the chat
sink in order, assigning each module id as soon as its creation
returns.  An exception from `_create_sink` propagates, leaving the
assignments already made in place. -/
def start_virtual_sinks (sinks : List (List Char)) (modules : List Nat)
    (load : List Char → Option (List Char) → Except Unit Nat)
    (st : NovaState) : StartResult :=
  let st0 := {st with originalSink := detect_original_sink st.originalSink sinks}
  let (st1, e1) := remove_virtual_sinks modules st0
  match create_sink load PW_GAME_SINK st1.originalSink with
  | (.error e, e2) => ⟨st1, e1 ++ e2, some e⟩
  | (.ok gid, e2) =>
    let st2 := {st1 with gameId := some gid}
    match create_sink load PW_CHAT_SINK st2.originalSink with
    | (.error e, e3) => ⟨st2, e1 ++ e2 ++ e3, some e⟩
    | (.ok cid, e3) => ⟨{st2 with chatId := some cid}, e1 ++ e2 ++ e3, none⟩

/-- Behaviour of one `pulsectl` session inside `_set_sink_volume`:
either some call in the `try` block raises `PulseError`, or
`sink_list()` returns sinks with the given `owner_module` values. -/
inductive VolCallEnv where
  | err : VolCallEnv
  | sinks : List (Option Nat) → VolCallEnv

/-- Embedding of `_set_sink_volume` (lines 164-179): finds the first sink whose
`owner_module` equals `module_id` and sets its volume; prints a message
if none is found; catches `PulseError` and prints a failure message.
It never raises. -/
def set_sink_volume (env : VolCallEnv) (module_id : Option Nat) (volume : ℚ) :
    List Eff :=
  match env with
  | .err => [Eff.printVolumeFailed]
  | .sinks owners =>
    match owners.find? (fun o => o == module_id) with
    | some o => [Eff.volumeSet o volume]
    | none => [Eff.printSinkNotFound]

/-- Outcome of one blocking `self.dev.read` in the loops. -/
inductive ReadResult where
  | msg : List Nat → ReadResult
  | timeout : ReadResult
  | fatal : ReadResult
deriving DecidableEq, Repr

/-- One iteration of the `chatmix` loop body (lines 187-206), entered
with `CLOSE` false: a timeout is ignored; a non-chatmix message is
skipped; a chatmix message sets both sink volumes to `msg[2] * 0.01`
and `msg[3] * 0.01`; a non-timeout `USBError` prints, sets `CLOSE`, and
removes the virtual sinks. -/
def chatmix_iter (modules : List Nat) (v1 v2 : VolCallEnv) (st : NovaState)
    (r : ReadResult) : NovaState × List Eff :=
  match r with
  | .timeout => (st, [])
  | .fatal =>
      let st1 := {st with close := true}
      let (st2, effs) := remove_virtual_sinks modules st1
      (st2, Eff.printDisconnect :: effs)
  | .msg m =>
      if m.getD 1 0 ≠ OPT_CHATMIX then (st, [])
      else
        let gamevol := m.getD 2 0
        let chatvol := m.getD 3 0
        (st, set_sink_volume v1 st.gameId ((gamevol : ℚ) * 0.01) ++
             set_sink_volume v2 st.chatId ((chatvol : ℚ) * 0.01))

/-- The `while not self.CLOSE` loop of `chatmix` plus the final
`_remove_virtual_sinks` (lines 186-208), driven by a finite schedule of
read outcomes.  Returns `none` when the schedule is exhausted while the
loop would still be reading. -/
def chatmix_run (modules : List Nat) (v1 v2 : VolCallEnv) :
    NovaState → List ReadResult → Option (NovaState × List Eff)
  | st, [] =>
      if st.close then some (remove_virtual_sinks modules st) else none
  | st, r :: rs =>
      if st.close then some (remove_virtual_sinks modules st)
      else
        let (st1, effs) := chatmix_iter modules v1 v2 st r
        match chatmix_run modules v1 v2 st1 rs with
        | some (stf, efff) => some (stf, effs ++ efff)
        | none => none

/-- Embedding of `set_chatmix_controls` (lines 76-81): one encode+write, then update
the feature flag. -/
def set_chatmix_controls (state : Bool) (st : NovaState) : NovaState × List Eff :=
  ({st with chatmixEnabled := state},
   [Eff.write (create_msgdata [TX, OPT_CHATMIX_ENABLE, if state then 1 else 0])])

/-- Embedding of `set_sonar_icon` (lines 84-89): one encode+write, then update the
feature flag. -/
def set_sonar_icon (state : Bool) (st : NovaState) : NovaState × List Eff :=
  ({st with sonarIconEnabled := state},
   [Eff.write (create_msgdata [TX, OPT_SONAR_ICON, if state then 1 else 0])])

/-- Embedding of `close` (lines 231-243): set `CLOSE`, disable each feature whose
flag is set, then remove the virtual sinks unconditionally. -/
def close_fn (modules : List Nat) (st : NovaState) : NovaState × List Eff :=
  let st1 := {st with close := true}
  let (st2, e1) := if st1.chatmixEnabled then set_chatmix_controls false st1 else (st1, [])
  let (st3, e2) := if st2.sonarIconEnabled then set_sonar_icon false st2 else (st2, [])
  let (st4, e3) := remove_virtual_sinks modules st3
  (st4, e1 ++ e2 ++ e3)

/-- The structured content of one line printed by `print_output`
(lines 215-227). -/
inductive OutLine where
  | raw : List Nat → OutLine
  | volume : Nat → OutLine
  | chatmixReport : Nat → Nat → OutLine
  | eqReport : Nat → ℚ → OutLine
  | eqPreset : Nat → OutLine
  | unknown : OutLine
deriving DecidableEq, Repr

/-- The `match msg[1]` dispatch of `print_output` (lines 217-227),
giving the structured content of the status line printed for one
message.  The EQ display value is `(msg[3] - 20) / 2` in exact
arithmetic. -/
def classify_line (msg : List Nat) : OutLine :=
  let op := msg.getD 1 0
  if op = OPT_VOLUME then .volume (msg.getD 2 0)
  else if op = OPT_CHATMIX then .chatmixReport (msg.getD 2 0) (msg.getD 3 0)
  else if op = OPT_EQ then .eqReport (msg.getD 2 0) ((((msg.getD 3 0 : ℤ) : ℚ) - 20) / 2)
  else if op = OPT_EQ_PRESET then .eqPreset (msg.getD 2 0)
  else .unknown

/-- Everything `print_output` prints for one successfully read message
(lines 214-227): the raw echo when `debug` is set, then the classified
status line. -/
def print_output_lines (debug : Bool) (msg : List Nat) : List OutLine :=
  (if debug then [OutLine.raw msg] else []) ++ [classify_line msg]

/-! ## Helper lemmas -/

/-- Folding the detection assignment over sinks none of which contains
the headset name leaves the accumulator unchanged. -/
theorem foldl_detect_no_match (sinks : List (List Char)) (acc : Option (List Char))
    (h : ∀ x ∈ sinks, containsSub HEADSET_NAME x = false) :
    sinks.foldl (fun acc nm => if containsSub HEADSET_NAME nm then some nm else acc) acc
      = acc := by
  induction sinks generalizing acc with
  | nil => rfl
  | cons a t ih =>
    have ha : containsSub HEADSET_NAME a = false := h a (by simp)
    simp only [List.foldl_cons, ha, Bool.false_eq_true, if_false]
    exact ih acc (fun x hx => h x (by simp [hx]))

/-- Whether an effect is a USB write. -/
def isWriteEff : Eff → Bool
  | .write _ => true
  | _ => false

/-- Helper: `_remove_sink` never writes to the USB transport. -/
theorem remove_sink_no_write (modules : List Nat) (id : Nat) :
    (remove_sink modules id).filter isWriteEff = [] := by
  unfold remove_sink
  cases modules.find? (fun m => m == id) <;> simp [isWriteEff]

/-- Helper: `_remove_virtual_sinks` never writes to the USB transport. -/
theorem remove_virtual_sinks_no_write (modules : List Nat) (st : NovaState) :
    (remove_virtual_sinks modules st).2.filter isWriteEff = [] := by
  unfold remove_virtual_sinks
  cases st.gameId <;> cases st.chatId <;>
    simp [remove_sink_no_write]

/-! ## Claims -/

/-- C1: the claim says every byte of the encoded message after the
payload is zero (0x00).  The code (`_create_msgdata`, line 73) pads
with the ASCII character "0", byte 0x30, contradicting the source's own
comment "padded with zeroes" (line 71): at opcode 141 with payload [1],
direction byte, opcode byte, payload byte and total length all match
the claim, but padding byte 3 is 0x30, not 0x00, so the message differs
from the spec-side zero-padded encoding. -/
theorem c1_encode_pads_with_ascii_zero :
    (encode OPT_SONAR_ICON [1]).getD 0 0 = TX ∧
    (encode OPT_SONAR_ICON [1]).getD 1 0 = OPT_SONAR_ICON ∧
    (encode OPT_SONAR_ICON [1]).getD 2 0 = 1 ∧
    (encode OPT_SONAR_ICON [1]).length = 64 ∧
    (encode OPT_SONAR_ICON [1]).getD 3 0 = 0x30 ∧
    encode OPT_SONAR_ICON [1] ≠ encode_spec OPT_SONAR_ICON [1] := by
  decide

/-- C2: from any state with the read loop active (stop flag unset) and
any combination of sink bindings — both, one, or none — a non-timeout
transport error terminates the loop (the run returns a final outcome)
with both virtual-sink module identifiers cleared and the stop flag
set. -/
theorem c2_fatal_error_teardown (modules : List Nat) (v1 v2 : VolCallEnv)
    (st : NovaState) (h : st.close = false) :
    chatmix_run modules v1 v2 st [ReadResult.fatal]
      = some ({st with gameId := none, chatId := none, close := true},
          Eff.printDisconnect ::
            (remove_virtual_sinks modules {st with close := true}).2) := by
  simp [chatmix_run, chatmix_iter, remove_virtual_sinks, h]

/-- Witness for C2 at a concrete state holding exactly one sink. -/
theorem c2_fatal_error_teardown_wit :
    chatmix_run [5] VolCallEnv.err VolCallEnv.err
        ⟨none, some 5, none, true, true, false⟩ [ReadResult.fatal]
      = some ({(⟨none, some 5, none, true, true, false⟩ : NovaState) with
                gameId := none, chatId := none, close := true},
          Eff.printDisconnect ::
            (remove_virtual_sinks [5]
              {(⟨none, some 5, none, true, true, false⟩ : NovaState) with
                close := true}).2) :=
  c2_fatal_error_teardown [5] VolCallEnv.err VolCallEnv.err _ rfl

/-- C3: a timeout during the read loop changes nothing — the loop body
returns the state unchanged (feature flags, module identifiers and stop
flag included) with no external effects, and the loop on a timeout
followed by further reads behaves exactly as the loop on those further
reads, i.e. it proceeds to issue another read. -/
theorem c3_timeout_transparency (modules : List Nat) (v1 v2 : VolCallEnv)
    (st : NovaState) (rs : List ReadResult) (h : st.close = false) :
    chatmix_iter modules v1 v2 st ReadResult.timeout = (st, []) ∧
    chatmix_run modules v1 v2 st (ReadResult.timeout :: rs)
      = chatmix_run modules v1 v2 st rs := by
  refine ⟨rfl, ?_⟩
  cases hrun : chatmix_run modules v1 v2 st rs with
  | none => simp [chatmix_run, chatmix_iter, h, hrun]
  | some p => simp [chatmix_run, chatmix_iter, h, hrun]

/-- Witness for C3 at a concrete running state. -/
theorem c3_timeout_transparency_wit :
    chatmix_iter [] VolCallEnv.err VolCallEnv.err
        ⟨none, some 1, some 2, true, true, false⟩ ReadResult.timeout
      = (⟨none, some 1, some 2, true, true, false⟩, []) ∧
    chatmix_run [] VolCallEnv.err VolCallEnv.err
        ⟨none, some 1, some 2, true, true, false⟩ [ReadResult.timeout]
      = chatmix_run [] VolCallEnv.err VolCallEnv.err
          ⟨none, some 1, some 2, true, true, false⟩ [] :=
  c3_timeout_transparency [] VolCallEnv.err VolCallEnv.err _ [] rfl

/-- Pulse environment for the C4 scenario: loading the game sink module
succeeds with module id 1; loading any other module raises
`PulseError`. -/
def loadGameOnly : List Char → Option (List Char) → Except Unit Nat :=
  fun nm _ => if nm = PW_GAME_SINK then .ok 1 else .error ()

/-- C4: the claim (and spec) say never exactly one sink binding, and
that a failure creating the second sink still attempts cleanup of the
first.  The code violates both: when creating the chat sink fails, the
`except` handler in `_create_sink` references the never-bound local
`new_sink`, so `UnboundLocalError` escapes, the trace contains no
module unload at all, and the state is left with exactly one binding
(the game sink). -/
theorem c4_partial_creation_failure :
    (start_virtual_sinks ["foo".toList] [] loadGameOnly
        ⟨none, none, none, false, false, false⟩).state.gameId = some 1 ∧
    (start_virtual_sinks ["foo".toList] [] loadGameOnly
        ⟨none, none, none, false, false, false⟩).state.chatId = none ∧
    (start_virtual_sinks ["foo".toList] [] loadGameOnly
        ⟨none, none, none, false, false, false⟩).raised
      = some PyError.unboundLocal ∧
    (start_virtual_sinks ["foo".toList] [] loadGameOnly
        ⟨none, none, none, false, false, false⟩).effs
      = [Eff.moduleLoad PW_GAME_SINK none, Eff.moduleLoad PW_CHAT_SINK none] := by
  decide

/-- C5 counterexample: with two sinks whose names both contain the
headset name, the code selects the second (last) one, not the first —
the detection loop has no break and overwrites the saved name on every
match. -/
theorem c5_first_match_cex :
    detect_original_sink none
        ["SteelSeries_Arctis_Nova_Pro_Wireless_1".toList,
         "SteelSeries_Arctis_Nova_Pro_Wireless_2".toList]
      = some "SteelSeries_Arctis_Nova_Pro_Wireless_2".toList ∧
    "SteelSeries_Arctis_Nova_Pro_Wireless_2".toList ≠
      "SteelSeries_Arctis_Nova_Pro_Wireless_1".toList ∧
    containsSub HEADSET_NAME "SteelSeries_Arctis_Nova_Pro_Wireless_1".toList
      = true := by
  decide

/-- C5 amended: the LAST sink whose name contains the headset-name
substring is selected — for any sink list that ends with a match
followed only by non-matching names, that match is the one saved. -/
theorem c5_last_match_wins (pre post : List (List Char)) (m : List Char)
    (hm : containsSub HEADSET_NAME m = true)
    (hpost : ∀ x ∈ post, containsSub HEADSET_NAME x = false) :
    detect_original_sink none (pre ++ m :: post) = some m := by
  unfold detect_original_sink
  rw [if_neg (by simp [pyTruthy])]
  rw [List.foldl_append]
  simp only [List.foldl_cons, hm, if_true]
  exact foldl_detect_no_match post (some m) hpost

/-- Witness for C5 amended: a match preceded and followed by other
names. -/
theorem c5_last_match_wins_wit :
    detect_original_sink none
        (["bar".toList] ++ "SteelSeries_Arctis_Nova_Pro_Wireless_X".toList
          :: ["foo".toList])
      = some "SteelSeries_Arctis_Nova_Pro_Wireless_X".toList :=
  c5_last_match_wins ["bar".toList] ["foo".toList] _ (by decide) (by decide)

/-- A pulse environment in which every `module_load` succeeds: the game
sink gets module id 1, anything else id 2. -/
def loadAllOk : List Char → Option (List Char) → Except Unit Nat :=
  fun nm _ => if nm = PW_GAME_SINK then .ok 1 else .ok 2

/-- C6 counterexample: with no sink matching the headset name and no
pre-set target, starting does not propagate an error — no exception
escapes and both sink creations are attempted with the still-unset
(`none`) target. -/
theorem c6_no_match_cex :
    detect_original_sink none ["foo".toList] = none ∧
    (start_virtual_sinks ["foo".toList] [] loadAllOk
        ⟨none, none, none, false, false, false⟩).raised = none ∧
    (start_virtual_sinks ["foo".toList] [] loadAllOk
        ⟨none, none, none, false, false, false⟩).effs
      = [Eff.moduleLoad PW_GAME_SINK none, Eff.moduleLoad PW_CHAT_SINK none] := by
  decide

/-- C6 amended: when no sink name contains the headset name and the
target is not pre-set, detection leaves the target unset and
`_start_virtual_sinks` proceeds anyway: its first pulse call is an
attempt to load the game sink module with slaves target `none`, and the
target stays unset in the resulting state. -/
theorem c6_no_match_proceeds (sinks : List (List Char)) (modules : List Nat)
    (load : List Char → Option (List Char) → Except Unit Nat) (st : NovaState)
    (h0 : st.originalSink = none) (hg : st.gameId = none) (hc : st.chatId = none)
    (hnm : ∀ x ∈ sinks, containsSub HEADSET_NAME x = false) :
    (start_virtual_sinks sinks modules load st).state.originalSink = none ∧
    ∃ rest, (start_virtual_sinks sinks modules load st).effs
      = Eff.moduleLoad PW_GAME_SINK none :: rest := by
  have hdet : detect_original_sink st.originalSink sinks = none := by
    rw [h0]
    unfold detect_original_sink
    rw [if_neg (by simp [pyTruthy])]
    exact foldl_detect_no_match sinks none hnm
  unfold start_virtual_sinks
  rw [hdet]
  cases hload : load PW_GAME_SINK none with
  | error e =>
      simp [remove_virtual_sinks, create_sink, hg, hc, hload]
  | ok gid =>
      cases hload2 : load PW_CHAT_SINK none with
      | error e => simp [remove_virtual_sinks, create_sink, hg, hc, hload, hload2]
      | ok cid => simp [remove_virtual_sinks, create_sink, hg, hc, hload, hload2]

/-- Witness for C6 amended at a concrete sink list and environment. -/
theorem c6_no_match_proceeds_wit :
    (start_virtual_sinks ["foo".toList] [] loadAllOk
        ⟨none, none, none, false, false, false⟩).state.originalSink = none ∧
    ∃ rest, (start_virtual_sinks ["foo".toList] [] loadAllOk
        ⟨none, none, none, false, false, false⟩).effs
      = Eff.moduleLoad PW_GAME_SINK none :: rest :=
  c6_no_match_proceeds ["foo".toList] [] loadAllOk _ rfl rfl rfl (by decide)

/-- C7 counterexample: for a 63-byte payload the code does not reject —
it returns a 65-byte message (the data is longer than `MSGLEN`, so
`ljust` pads nothing and the length invariant is broken silently). -/
theorem c7_overlong_payload_cex :
    (encode OPT_VOLUME (List.replicate 63 0)).length = 65 := by
  show (create_msgdata (TX :: OPT_VOLUME :: List.replicate 63 0)).length = 65
  rw [create_msgdata_length]
  simp [MSGLEN]

/-- C7 amended: for payloads of at most 62 bytes, encode returns
exactly 64 bytes; for longer payloads it does not reject but returns an
overlong message of `2 + payload length` bytes. -/
theorem c7_encode_length (opcode : Nat) (payload : List Nat) :
    (payload.length ≤ 62 → (encode opcode payload).length = 64) ∧
    (62 < payload.length → (encode opcode payload).length = 2 + payload.length) := by
  constructor <;> intro h <;>
    · show (create_msgdata (TX :: opcode :: payload)).length = _
      rw [create_msgdata_length]
      simp only [List.length_cons, MSGLEN]
      omega

/-- Witness for C7 amended at a 62-byte and a 63-byte payload. -/
theorem c7_encode_length_wit :
    (encode OPT_VOLUME (List.replicate 62 0)).length = 64 ∧
    (encode OPT_VOLUME (List.replicate 63 1)).length
      = 2 + (List.replicate 63 (1 : Nat)).length :=
  ⟨(c7_encode_length OPT_VOLUME (List.replicate 62 0)).1 (by simp),
   (c7_encode_length OPT_VOLUME (List.replicate 63 1)).2 (by simp)⟩

/-- C8: on a chatmix report with raw bytes (g, c), the loop body sets
the game sink volume to `g * 0.01` and the chat sink volume to
`c * 0.01` (shown with each sink found by its module id); the chat-sink
volume is still applied when setting the game-sink volume fails (the
failure is absorbed inside `_set_sink_volume`); and in exact arithmetic
raw 100 maps to volume 1, raw 50 to 1/2 and raw 0 to 0. -/
theorem c8_chatmix_volume_mapping (modules : List Nat) (st : NovaState)
    (gi ci g c : Nat) (m : List Nat)
    (hg : st.gameId = some gi) (hc : st.chatId = some ci)
    (h1 : m.getD 1 0 = OPT_CHATMIX) (h2 : m.getD 2 0 = g) (h3 : m.getD 3 0 = c) :
    chatmix_iter modules (VolCallEnv.sinks [some gi]) (VolCallEnv.sinks [some ci])
        st (ReadResult.msg m)
      = (st, [Eff.volumeSet (some gi) ((g : ℚ) * 0.01),
              Eff.volumeSet (some ci) ((c : ℚ) * 0.01)]) ∧
    chatmix_iter modules VolCallEnv.err (VolCallEnv.sinks [some ci])
        st (ReadResult.msg m)
      = (st, [Eff.printVolumeFailed, Eff.volumeSet (some ci) ((c : ℚ) * 0.01)]) ∧
    ((100 : ℚ) * 0.01 = 1 ∧ (50 : ℚ) * 0.01 = 1 / 2 ∧ (0 : ℚ) * 0.01 = 0) := by
  simp only [List.getD, List.get?_eq_getElem?] at h1 h2 h3
  refine ⟨?_, ?_, by norm_num⟩ <;>
    simp [chatmix_iter, set_sink_volume, List.getD, h1, h2, h3, hg, hc]

/-- Witness for C8 at the device report (100, 50) on a state holding
both sinks. -/
theorem c8_chatmix_volume_mapping_wit :
    chatmix_iter [] (VolCallEnv.sinks [some 1]) (VolCallEnv.sinks [some 2])
        ⟨none, some 1, some 2, true, true, false⟩ (ReadResult.msg [7, 69, 100, 50])
      = (⟨none, some 1, some 2, true, true, false⟩,
         [Eff.volumeSet (some 1) (((100 : Nat) : ℚ) * 0.01),
          Eff.volumeSet (some 2) (((50 : Nat) : ℚ) * 0.01)]) ∧
    chatmix_iter [] VolCallEnv.err (VolCallEnv.sinks [some 2])
        ⟨none, some 1, some 2, true, true, false⟩ (ReadResult.msg [7, 69, 100, 50])
      = (⟨none, some 1, some 2, true, true, false⟩,
         [Eff.printVolumeFailed,
          Eff.volumeSet (some 2) (((50 : Nat) : ℚ) * 0.01)]) ∧
    ((100 : ℚ) * 0.01 = 1 ∧ (50 : ℚ) * 0.01 = 1 / 2 ∧ (0 : ℚ) * 0.01 = 0) :=
  c8_chatmix_volume_mapping [] _ 1 2 100 50 [7, 69, 100, 50] rfl rfl rfl rfl rfl

/-- C9: when at shutdown only the sonar-icon flag is set, `close` sends
exactly one USB write — the icon disable command — and no
chatmix-control command, yet still clears both sink bindings. -/
theorem c9_symmetric_shutdown (modules : List Nat) (st : NovaState)
    (hi : st.sonarIconEnabled = true) (hc : st.chatmixEnabled = false) :
    (close_fn modules st).2.filter isWriteEff
      = [Eff.write (encode OPT_SONAR_ICON [0])] ∧
    (close_fn modules st).2
      = Eff.write (encode OPT_SONAR_ICON [0]) ::
          (remove_virtual_sinks modules
            {st with close := true, sonarIconEnabled := false}).2 ∧
    (close_fn modules st).1.gameId = none ∧
    (close_fn modules st).1.chatId = none ∧
    (close_fn modules st).1.close = true := by
  have hstep : close_fn modules st
      = ({st with close := true, sonarIconEnabled := false, gameId := none, chatId := none},
         Eff.write (create_msgdata [TX, OPT_SONAR_ICON, 0]) ::
           (remove_virtual_sinks modules
             {st with close := true, sonarIconEnabled := false}).2) := by
    unfold close_fn set_chatmix_controls set_sonar_icon
    simp [hi, hc, remove_virtual_sinks]
  rw [hstep]
  refine ⟨?_, rfl, rfl, rfl, rfl⟩
  simp [List.filter_cons, isWriteEff, remove_virtual_sinks_no_write, encode]

/-- Witness for C9 at a concrete state with both sinks present and only
the icon flag set. -/
theorem c9_symmetric_shutdown_wit :
    (close_fn [3, 4] ⟨none, some 3, some 4, false, true, false⟩).2.filter isWriteEff
      = [Eff.write (encode OPT_SONAR_ICON [0])] ∧
    (close_fn [3, 4] ⟨none, some 3, some 4, false, true, false⟩).2
      = Eff.write (encode OPT_SONAR_ICON [0]) ::
          (remove_virtual_sinks [3, 4]
            {(⟨none, some 3, some 4, false, true, false⟩ : NovaState) with
              close := true, sonarIconEnabled := false}).2 ∧
    (close_fn [3, 4] ⟨none, some 3, some 4, false, true, false⟩).1.gameId = none ∧
    (close_fn [3, 4] ⟨none, some 3, some 4, false, true, false⟩).1.chatId = none ∧
    (close_fn [3, 4] ⟨none, some 3, some 4, false, true, false⟩).1.close = true :=
  c9_symmetric_shutdown [3, 4] _ rfl rfl

/-- C10: neither loop inspects the direction byte: replacing byte 0 of
a received message by anything (in particular `TX` instead of `RX`)
changes neither the chatmix loop body's result nor the status printer's
classification, nor anything the printer prints outside raw debug
echo. -/
theorem c10_direction_byte_ignored (modules : List Nat) (v1 v2 : VolCallEnv)
    (st : NovaState) (b b' : Nat) (rest : List Nat) :
    chatmix_iter modules v1 v2 st (ReadResult.msg (b :: rest))
      = chatmix_iter modules v1 v2 st (ReadResult.msg (b' :: rest)) ∧
    classify_line (b :: rest) = classify_line (b' :: rest) ∧
    print_output_lines false (b :: rest) = print_output_lines false (b' :: rest) := by
  refine ⟨?_, ?_, ?_⟩ <;> rfl

end Nova
